import Mathlib

/-!
Verification of the finite-field (Galois field) arithmetic engine.

The repository implements three classes sharing one design:
* class GF2 (gf2.h): the binary extension field GF(2^8) with primitive
  polynomial 0x11D and lookup tables built from generator 2;
* class GFn (gfn.cpp): prime fields GF(p) with a trial-division primality
  check and a generator chosen by findPrime;
* class GF (gf.h legacy): a prime-field variant with a fixed multiplier 16
  and a doubled exponent table.

C arrays of 8/16-bit cells are modelled as flat memory: one natural number
made of 16-bit lanes.  A freshly allocated array holds indeterminate
contents; every lane of fresh memory carries the sentinel 0xFFFF, a value no
table write of this library ever stores (written values are below 0xFFFF),
and reading a sentinel lane - or reading out of bounds - yields none.
Operations that may read an indeterminate cell therefore return Option.
-/

set_option maxRecDepth 10000
set_option maxHeartbeats 2000000

/-- lane i of flat memory m (16-bit lanes). -/
def laneGet (m i : ℕ) : ℕ := m >>> (16 * i) &&& 65535

/-- store value v (truncated to 16 bits) into lane i of flat memory m. -/
def laneSet (m i v : ℕ) : ℕ :=
  m - (laneGet m i <<< (16 * i)) + ((v % 65536) <<< (16 * i))

/-- freshly allocated memory of n lanes: every lane indeterminate (0xFFFF). -/
def memNew (n : ℕ) : ℕ := (1 <<< (16 * n)) - 1

/-- a lookup table: cell count plus flat memory. -/
structure Tab where
  size : ℕ
  mem : ℕ
  deriving DecidableEq

/-- read cell i: none when out of bounds or the cell was never written. -/
def Tab.rd (t : Tab) (i : ℕ) : Option ℕ :=
  if i < t.size then
    if laneGet t.mem i = 65535 then none else some (laneGet t.mem i)
  else none

/-- read at a signed index (C integer promotion can make indices negative). -/
def Tab.rdI (t : Tab) (i : ℤ) : Option ℕ :=
  if 0 ≤ i then t.rd i.toNat else none

/-- write value v to cell i. -/
def Tab.wr (t : Tab) (i v : ℕ) : Tab := ⟨t.size, laneSet t.mem i v⟩

/-- write the result of a read back to cell i; an indeterminate or failed
read stores an indeterminate value. -/
def Tab.wrOpt (t : Tab) (i : ℕ) : Option ℕ → Tab
  | some v => t.wr i v
  | none => t.wr i 65535

/-- a constructed field object: characteristic plus the two tables
(the uninitialized state has len = 0 and unallocated tables). -/
structure Obj where
  len : ℕ
  exp : Tab
  log : Tab

namespace GF2

/-- gf2.h GF2_POLY: the primitive polynomial of GF(2^8). -/
def POLY : ℕ := 0x11d

/-- loop of GF2::slowMul (Russian peasant multiplication over bytes).
The fuel bounds the iteration count; 8 rounds suffice because the byte
multiplier y is halved every round. -/
def slowMulGo : ℕ → ℕ → ℕ → ℕ → ℕ
  | 0, ret, _, _ => ret
  | fuel + 1, ret, x_, y =>
    if y = 0 then ret
    else
      slowMulGo fuel
        (if y % 2 = 1 then (Nat.xor ret x_) % 256 else ret)
        (let x2 := (x_ * 2) % 65536
         if Nat.land x2 256 ≠ 0 then Nat.xor x2 POLY else x2)
        (y / 2)

/-- GF2::slowMul; both arguments are bytes (uint8_t). -/
def slowMul (x y : ℕ) : ℕ := slowMulGo 8 0 (x % 256) (y % 256)

/-- the table-filling loop of the GF2 constructor, continued from iteration
i with current tables e, l and running value x:
exp[i] = x; log[x] = i; x = slowMul(x, 2).  The fuel counts the remaining
iterations (the C loop runs for i from 0 to 255). -/
def buildGo : ℕ → ℕ → Tab → Tab → ℕ → Tab × Tab × ℕ
  | 0, _, e, l, x => (e, l, x)
  | fuel + 1, i, e, l, x =>
    buildGo fuel (i + 1) (e.wr i x) (l.wr x i) (slowMul x 2)

/-- upper-half duplication loop of the GF2 constructor
(exp[i] = exp[i - 255] for i from 256 while i < 512), from index i on,
with the fuel counting the remaining iterations. -/
def dupFrom : ℕ → ℕ → Tab → Tab
  | 0, _, e => e
  | fuel + 1, i, e =>
    if i < 512 then dupFrom fuel (i + 1) (e.wrOpt i (e.rd (i - 255))) else e

/-- the exponent table built by the GF2 constructor
(512 cells: the filling loop, then the duplication loop). -/
def expT : Tab :=
  dupFrom 256 256 (buildGo 256 0 ⟨512, memNew 512⟩ ⟨256, memNew 256⟩ 1).1

/-- the logarithm table built by the GF2 constructor (256 cells). -/
def logT : Tab := (buildGo 256 0 ⟨512, memNew 512⟩ ⟨256, memNew 256⟩ 1).2.1

/-- GF2::add: bitwise XOR. -/
def add (x y : ℕ) : ℕ := Nat.xor x y

/-- GF2::sub: bitwise XOR, identical to addition. -/
def sub (x y : ℕ) : ℕ := Nat.xor x y

/-- body of GF2::mul over given tables:
zero check, then exp[log[x] + log[y]]. -/
def mulT (expt logt : Tab) (x y : ℕ) : Option ℕ :=
  if x = 0 ∨ y = 0 then some 0
  else
    (logt.rd x).bind fun a =>
    (logt.rd y).bind fun b =>
    expt.rd (a + b)

/-- GF2::mul on the constructed tables. -/
def mul : ℕ → ℕ → Option ℕ := mulT expT logT

/-- body of GF2::div over given tables: zero checks, then
exp[(log[dividend] + 255 - log[divisor]) % 255]. -/
def divT (expt logt : Tab) (dividend divisor : ℕ) : Option ℕ :=
  if divisor = 0 then some 0
  else if dividend = 0 then some 0
  else
    (logt.rd dividend).bind fun a =>
    (logt.rd divisor).bind fun b =>
    expt.rd ((a + 255 - b) % 255)

/-- GF2::div on the constructed tables. -/
def div : ℕ → ℕ → Option ℕ := divT expT logT

/-- body of GF2::pow over given tables: exp[(exponent * log[x]) % 255],
with no zero check on x. -/
def powT (expt logt : Tab) (x exponent : ℕ) : Option ℕ :=
  (logt.rd x).bind fun lx =>
  expt.rd (exponent * lx % 255)

/-- GF2::pow on the constructed tables. -/
def pow : ℕ → ℕ → Option ℕ := powT expT logT

/-- body of GF2::inv over given tables: exp[255 - log[x]],
with no zero check on x. -/
def invT (expt logt : Tab) (x : ℕ) : Option ℕ :=
  (logt.rd x).bind fun lx =>
  expt.rd (255 - lx)

/-- GF2::inv on the constructed tables. -/
def inv : ℕ → Option ℕ := invT expT logT

end GF2

namespace GFn

/-- GFn::slowMul: plain modular multiplication with a zero check. -/
def slowMul (len x y : ℕ) : ℕ := if x = 0 ∨ y = 0 then 0 else x * y % len

/-- trial-division loop of GFn::checkPrime: for i from its current value
while i < (x >> 1), return -1 on the first divisor.  The fuel bounds the
iteration count; checkPrime passes fuel x, which dominates the at most
x/2 - 2 iterations. -/
def checkPrimeGo : ℕ → ℕ → ℕ → ℤ
  | 0, _, _ => 0
  | fuel + 1, x, i =>
    if i < x >>> 1 then (if x % i = 0 then -1 else checkPrimeGo fuel x (i + 1))
    else 0

/-- GFn::checkPrime: 0 when the trial division finds no divisor, else -1. -/
def checkPrime (x : ℕ) : ℤ := if x < 2 then -1 else checkPrimeGo x x 2

/-- descending loop of GFn::findPrime: for max while max > 0, return the
first value accepted by checkPrime. -/
def findPrimeGo : ℕ → ℕ
  | 0 => 0
  | m + 1 => if checkPrime (m + 1) = 0 then m + 1 else findPrimeGo m

/-- GFn::findPrime: 0 for max < 2, max itself for max = 2, otherwise the
descending scan from max - 1. -/
def findPrime (max : ℕ) : ℕ :=
  if max < 2 then 0 else if max = 2 then 2 else findPrimeGo (max - 1)

/-- the table-filling loop of the GFn constructor, continued from iteration
i: exp[i] = x; log[x] = i; x = slowMul(x, gen).  The C loop runs for i from
0 while i < len - 1; the fuel counts the remaining iterations. -/
def buildGo (len gen : ℕ) : ℕ → ℕ → Tab → Tab → ℕ → Tab × Tab × ℕ
  | 0, _, e, l, x => (e, l, x)
  | fuel + 1, i, e, l, x =>
    buildGo len gen fuel (i + 1) (e.wr i x) (l.wr x i) (slowMul len x gen)

/-- the GFn constructor: len starts at 0; a characteristic rejected by
checkPrime leaves the object with len = 0 and unallocated tables; otherwise
the generator is findPrime(p), both tables are filled by the loop for
i < p - 1, and the final running value is stored at exp[p - 1]. -/
def mk (p : ℕ) : Obj :=
  if checkPrime p ≠ 0 then ⟨0, ⟨0, 0⟩, ⟨0, 0⟩⟩
  else
    let r := buildGo p (findPrime p) (p - 1) 0 ⟨p, memNew p⟩ ⟨p, memNew p⟩ 1
    ⟨p, r.1.wr (p - 1) r.2.2, r.2.1⟩

/-- GFn::isInitialized: 0 when a characteristic is set. -/
def isInitialized (s : Obj) : ℕ := if s.len ≠ 0 then 0 else 1

/-- GFn::add. -/
def add (s : Obj) (x y : ℕ) : ℕ := (x + y) % s.len

/-- GFn::sub: direct subtraction when x >= y, else len - ((y - x) mod len). -/
def sub (s : Obj) (x y : ℕ) : ℕ :=
  if x ≥ y then (x - y) % s.len else s.len - (y - x) % s.len

/-- GFn::mul: zero check, then exp[(log[x] + log[y]) % (len - 1)]. -/
def mul (s : Obj) (x y : ℕ) : Option ℕ :=
  if x = 0 ∨ y = 0 then some 0
  else
    (s.log.rd x).bind fun a =>
    (s.log.rd y).bind fun b =>
    s.exp.rd ((a + b) % (s.len - 1))

/-- GFn::div: zero checks, then with the signed difference
t = log[dividend] - log[divisor], exp[t] when t >= 0 and
exp[(len - 1) + t] otherwise. -/
def div (s : Obj) (dividend divisor : ℕ) : Option ℕ :=
  if divisor = 0 then some 0
  else if dividend = 0 then some 0
  else
    (s.log.rd dividend).bind fun a =>
    (s.log.rd divisor).bind fun b =>
    let t : ℤ := (a : ℤ) - (b : ℤ)
    if 0 ≤ t then s.exp.rdI t else s.exp.rdI ((s.len : ℤ) - 1 + t)

/-- GFn::pow: exp[(exponent * log[x]) % (len - 1)], no zero check on x. -/
def pow (s : Obj) (x exponent : ℕ) : Option ℕ :=
  (s.log.rd x).bind fun lx =>
  s.exp.rd (exponent * lx % (s.len - 1))

/-- GFn::inv: an explicit zero branch returning 0, then
exp[(len - 1) - log[x]]. -/
def inv (s : Obj) (x : ℕ) : Option ℕ :=
  if x = 0 then some 0
  else
    (s.log.rd x).bind fun lx =>
    s.exp.rdI ((s.len : ℤ) - 1 - (lx : ℤ))

end GFn

namespace GF

/-- GF::slowMul (legacy class): modular multiplication with a zero check. -/
def slowMul (len x y : ℕ) : ℕ := if x = 0 ∨ y = 0 then 0 else x * y % len

/-- the table-filling loop of the legacy GF constructor, continued from
iteration i: exp[i] = x; log[x] = i; x = slowMul(x, 16).  The C loop runs
for i from 0 while i < len; the fuel counts the remaining iterations. -/
def buildGo (len : ℕ) : ℕ → ℕ → Tab → Tab → ℕ → Tab × Tab × ℕ
  | 0, _, e, l, x => (e, l, x)
  | fuel + 1, i, e, l, x =>
    buildGo len fuel (i + 1) (e.wr i x) (l.wr x i) (slowMul len x 16)

/-- source index read by the upper-half duplication loop of the legacy GF
constructor at iteration i: exp[i] = exp[i - len - 1], computed in a signed
integer after C promotion. -/
def dupSrc (len i : ℕ) : ℤ := (i : ℤ) - (len : ℤ) - 1

/-- upper-half duplication loop of the legacy GF constructor, for i from len
while i < 2 * len, reading the cell at dupSrc len i. -/
def dupFrom (len : ℕ) : ℕ → ℕ → Tab → Tab
  | 0, _, e => e
  | fuel + 1, i, e =>
    if i < 2 * len then dupFrom len fuel (i + 1) (e.wrOpt i (e.rdI (dupSrc len i)))
    else e

/-- the legacy GF constructor: exponent table of 2 * p cells, logarithm
table of p cells, filling loop for i < p, then the duplication loop. -/
def mk (p : ℕ) : Obj :=
  let r := buildGo p p 0 ⟨2 * p, memNew (2 * p)⟩ ⟨p, memNew p⟩ 1
  ⟨p, dupFrom p p p r.1, r.2.1⟩

/-- GF::mul (legacy): zero check, then exp[log[x] + log[y]]. -/
def mul (s : Obj) (x y : ℕ) : Option ℕ :=
  if x = 0 ∨ y = 0 then some 0
  else
    (s.log.rd x).bind fun a =>
    (s.log.rd y).bind fun b =>
    s.exp.rd (a + b)

/-- search loop of GF::div (legacy): for i from 1 while i < divisor,
a += len, return (a / divisor) % len as soon as divisor divides a. -/
def divGo (len divisor : ℕ) : ℕ → ℕ → ℕ → ℕ
  | 0, _, _ => 0
  | fuel + 1, i, a =>
    if i < divisor then
      let a2 := a + len
      if a2 % divisor = 0 then a2 / divisor % len else divGo len divisor fuel (i + 1) a2
    else 0

/-- GF::div (legacy): zero checks, exact quotient when divisor divides
dividend, otherwise the search loop. -/
def div (s : Obj) (dividend divisor : ℕ) : ℕ :=
  if divisor = 0 then 0
  else if dividend = 0 then 0
  else if dividend % divisor = 0 then dividend / divisor % s.len
  else divGo s.len divisor divisor 1 dividend

end GF

/-! ### Values of the GF2 lookup tables

The following literals record the flat memory of the tables built by the
GF2 constructor; the lemmas below establish them against the constructor
model by kernel evaluation.  They let later proofs evaluate table lookups
directly on literals. -/

/-- flat memory of the GF2 exponent table after the filling loop. -/
def gf2ExpLower : ℕ := 1090748135619415929462984244733782862448264161996232692431832786189721331849119295216264234525201987223957291796157025273109870820177184063610979765077554799078906298842192989538609825228048205159696851613591638196771886542609324560121290553901886301017900252535799917200010079600026535836800905297805880952350501630195475653911005312364560014847426035293551245843928918752768696279344088055617515694349945406677825140814900616105920256438504578013326493565836047242407382442812245131517757519164899226365743722432277368075027627883045206501792761700945699168497257879683851737049996900961120515655050115561271491492515342105748966629547032786321505730828430221664970324396138635251626409516168005427623435996308921691446181187406395310665404885739434832877428167407495370993511868756359970390117021823616749458620969857006263612082706715408157066575137281027022310927564910276759160520878304632411049364568754920967322982459184763427383790272448438018526977764941072715611580434690827459339991961414242741410599117426060556483763756314527611362658628383368621157993638020878537675545336789915694234433955666315070087213535470255670312004130725495834508357439653828936077080978550578912967907352780054935621561090795845172954115972926435504616964846093149851078672414025477867095953168632521397681167306971166932837082746929462636445105627599381974921859886774276530188379544861390319842073623832575400131939334543417686347944113972414359600706781881837001960269972976877694027963089012249419143207266311153483798387517895873128334349917750566387374484353417758214133540428026937936149919744118501281335829179417822318952726602137284591169444233246658659140164711007449036970531396432417008605706773351894944468069979866988819111275828381620538261708857402474477512564101394872138746030414212424585830035813672352323315307607392151304442912661001253068879027202268592340474478580008442025860326226739011610046908442859481594220962747342218206097362097113135105620022417766006058116485958056579992467380739874891407435464562647087863056326768036552191840551418659677209035669155690465558477423388545396780981308010455038368029335360055170834357213745034891124418742038579869757269547545602316656695071551942323544296489317029959962427369695134953246775507364420417279365897439557026403853666715595759305965528469284564108274406949825497448008017528804983043005650754422633367476032184128688208904850588837028342812394614420728073654551476764689688629144005287249838081

/-- flat memory of the GF2 logarithm table. -/
def gf2LogMem : ℕ := 2788840586004698986684685634485251937404176860434603148049497139885713515993027375356986326141331782820225042093061429840960319338885899970527961871612497310598559840403721481107036369027364574455711468799449439672454768570001323995557971498694997462678190553875074724712095550600342051352222586843858735493334026075241708606721746080336019161417924602211250077821243094855057097457970122206425220141653740766110427729142267478783891559571767994849629375097846865063120193311633812606432508499450446557802946935482844249850646648560439540926802025540333417144408822641621002318723277159969006454324020656112762132138851037534978011010767491263383129715811317292383173798397933511711079829713724907849979127783886463123513032906424099223885761387032303614887174557382014790108600459077104763134427765305991827521447869176538832424261696594607798741716652814444691070108433184185498824715361613706106453130222024940725311602066330964491665779779762357924009936609753790499086177600309301518440099931269071961745256667528483048748930700709333817370758679496568098930497564974291570835096491818688129462883540065064912749809811895504034545896416864438838509810666493948636485844251032927737099438832849589086508150419232598269997613055

/-- flat memory of the GF2 exponent table after the duplication loop. -/
def gf2ExpMem : ℕ := 33287245953324746435915758838836123115417462276042866124459151188377550606980032686698389674283291523019602446085805701831749531219252126233597684590289014951317766434438728637399338621116900639875495454981426302946336300608952901315507542035364058238613850357073597537073864074907261645621488270058080621266186759010132006739554364225850087833543912617789012276630060170561921874815353308099558916816534558619279682902960055010642047075581937901613737144077037581906404485166658265513482151146541703711336714501614080678854400882784716643655260033385134316392052658953038338661317042704265099047937578635833194190508578687636726697900851381314247414460109110075919153814995932938728813918504680184016139519750288904616939716779317531193610308179009087211069813983493926308677463767516833160673468064619083116351377942206557704689693067159559554497004169963021055570036736659829414091839569951138800592303469981137403826786022518705938789829753810550216468683850394015925178006399115100433856013051212140385801365447388784577081749880895348630333108895866111113023379745564069070642532598556462980381132648963749702102019962929481170168860500727831282325688936580288609251928097695527328592710408612894075558389816016284127994322158086314441517847779399128148887590550113282565007375254437907703782364879797750863370231203728975181811358703882876136206688712002649783643751663643110010539068730823004994959261211914849093786424682809664966130263517593549548501138976763249045015222789839212673826886552357759549700112932867399925798377018355332956551040785151120510146382417040492247434901389026311682619821126928144069143191785950520568655567373496537711063126215970369294383345967183449713738505880155335810724277249147662663985313959210534993214581910320571382215469382461038068015335630034547481252369777814000447955132863244241051446071465455022742018145797042058572053641723487572457042213751999807947781618895404574523225452442528337134869773175970554609885842541628075810958151831719006088159109119535334021086223567227074802265732408090846555308393877936916049924348050690389308157927212259053437914866913137926282093389084513924376375323286324016391936647556308115554250280311816863540930462302671249382411985321886744523300792453012715592916033205261126329361981496869437351879137417082949632363687969491794033288692320297537839885801669786399760389380715565778744996492776941289181125261586859160808561413333383174015169810376390077233328688453517313

/-- the filling loop of the GF2 constructor, evaluated. -/
theorem gf2_build_eq :
    GF2.buildGo 256 0 ⟨512, memNew 512⟩ ⟨256, memNew 256⟩ 1 =
      (⟨512, gf2ExpLower⟩, ⟨256, gf2LogMem⟩, 2) := by decide!

/-- the duplication loop of the GF2 constructor, evaluated. -/
theorem gf2_dup_eq : GF2.dupFrom 256 256 ⟨512, gf2ExpLower⟩ = ⟨512, gf2ExpMem⟩ := by
  decide!

/-- the GF2 logarithm table as a literal. -/
theorem logT_eq : GF2.logT = ⟨256, gf2LogMem⟩ := by
  show (GF2.buildGo 256 0 ⟨512, memNew 512⟩ ⟨256, memNew 256⟩ 1).2.1 = _
  rw [gf2_build_eq]

/-- the GF2 exponent table as a literal. -/
theorem expT_eq : GF2.expT = ⟨512, gf2ExpMem⟩ := by
  show GF2.dupFrom 256 256
      (GF2.buildGo 256 0 ⟨512, memNew 512⟩ ⟨256, memNew 256⟩ 1).1 = _
  rw [gf2_build_eq]
  exact gf2_dup_eq

/-! ### Exhaustive checks

Heavy finite checks are phrased as boolean folds over explicit ranges and
evaluated once by the kernel; a small bridge lemma turns them back into
universally quantified statements. -/

/-- bridge from a boolean fold over List.range to a bounded statement. -/
theorem all_range_true {n : ℕ} {f : ℕ → Bool}
    (h : (List.range n).all f = true) {i : ℕ} (hi : i < n) : f i = true :=
  List.all_eq_true.mp h i (List.mem_range.mpr hi)

/-- bridge from a boolean fold over List.range' to a bounded statement. -/
theorem all_range'_true {s n : ℕ} {f : ℕ → Bool}
    (h : (List.range' s n).all f = true) {i : ℕ} (h1 : s ≤ i) (h2 : i < s + n) :
    f i = true :=
  List.all_eq_true.mp h i (List.mem_range'_1.mpr ⟨h1, h2⟩)

/-- exhaustive check over GF(2^8), in chunks of 32 rows of 256 columns: the
table multiplication agrees with slowMul on every pair of bytes. -/
def gf2MulCheck0 : Bool :=
  (List.range' 0 32).all fun x => (List.range 256).all fun y =>
    GF2.mulT ⟨512, gf2ExpMem⟩ ⟨256, gf2LogMem⟩ x y == some (GF2.slowMul x y)

theorem gf2MulCheck0_true : gf2MulCheck0 = true := by decide!

def gf2MulCheck1 : Bool :=
  (List.range' 32 32).all fun x => (List.range 256).all fun y =>
    GF2.mulT ⟨512, gf2ExpMem⟩ ⟨256, gf2LogMem⟩ x y == some (GF2.slowMul x y)

theorem gf2MulCheck1_true : gf2MulCheck1 = true := by decide!

def gf2MulCheck2 : Bool :=
  (List.range' 64 32).all fun x => (List.range 256).all fun y =>
    GF2.mulT ⟨512, gf2ExpMem⟩ ⟨256, gf2LogMem⟩ x y == some (GF2.slowMul x y)

theorem gf2MulCheck2_true : gf2MulCheck2 = true := by decide!

def gf2MulCheck3 : Bool :=
  (List.range' 96 32).all fun x => (List.range 256).all fun y =>
    GF2.mulT ⟨512, gf2ExpMem⟩ ⟨256, gf2LogMem⟩ x y == some (GF2.slowMul x y)

theorem gf2MulCheck3_true : gf2MulCheck3 = true := by decide!

def gf2MulCheck4 : Bool :=
  (List.range' 128 32).all fun x => (List.range 256).all fun y =>
    GF2.mulT ⟨512, gf2ExpMem⟩ ⟨256, gf2LogMem⟩ x y == some (GF2.slowMul x y)

theorem gf2MulCheck4_true : gf2MulCheck4 = true := by decide!

def gf2MulCheck5 : Bool :=
  (List.range' 160 32).all fun x => (List.range 256).all fun y =>
    GF2.mulT ⟨512, gf2ExpMem⟩ ⟨256, gf2LogMem⟩ x y == some (GF2.slowMul x y)

theorem gf2MulCheck5_true : gf2MulCheck5 = true := by decide!

def gf2MulCheck6 : Bool :=
  (List.range' 192 32).all fun x => (List.range 256).all fun y =>
    GF2.mulT ⟨512, gf2ExpMem⟩ ⟨256, gf2LogMem⟩ x y == some (GF2.slowMul x y)

theorem gf2MulCheck6_true : gf2MulCheck6 = true := by decide!

def gf2MulCheck7 : Bool :=
  (List.range' 224 32).all fun x => (List.range 256).all fun y =>
    GF2.mulT ⟨512, gf2ExpMem⟩ ⟨256, gf2LogMem⟩ x y == some (GF2.slowMul x y)

theorem gf2MulCheck7_true : gf2MulCheck7 = true := by decide!

/-- the chunks combined: the table multiplication agrees with slowMul on
every pair of bytes. -/
theorem gf2Mul_all : ∀ x : ℕ, x < 256 → ∀ y : ℕ, y < 256 →
    GF2.mulT ⟨512, gf2ExpMem⟩ ⟨256, gf2LogMem⟩ x y = some (GF2.slowMul x y) := by
  intro x hx y hy
  have step : ∀ g : ℕ → Bool, ((List.range 256).all g) = true → g y = true :=
    fun g hg => all_range_true hg hy
  have get : (fun x => (List.range 256).all fun y =>
      GF2.mulT ⟨512, gf2ExpMem⟩ ⟨256, gf2LogMem⟩ x y == some (GF2.slowMul x y)) x
        = true := by
    by_cases h0 : x < 32
    · exact all_range'_true gf2MulCheck0_true (by omega) (by omega)
    by_cases h1 : x < 64
    · exact all_range'_true gf2MulCheck1_true (by omega) (by omega)
    by_cases h2 : x < 96
    · exact all_range'_true gf2MulCheck2_true (by omega) (by omega)
    by_cases h3 : x < 128
    · exact all_range'_true gf2MulCheck3_true (by omega) (by omega)
    by_cases h4 : x < 160
    · exact all_range'_true gf2MulCheck4_true (by omega) (by omega)
    by_cases h5 : x < 192
    · exact all_range'_true gf2MulCheck5_true (by omega) (by omega)
    by_cases h6 : x < 224
    · exact all_range'_true gf2MulCheck6_true (by omega) (by omega)
    exact all_range'_true gf2MulCheck7_true (by omega) (by omega)
  have hy2 := step _ get
  simpa only [beq_iff_eq] using hy2

/-- check over GF(2^8): every nonzero byte has a logarithm, bounded by 255,
and the exponent table takes it back to the byte. -/
def gf2LogFact : Bool :=
  (List.range 256).all fun v =>
    v == 0 ||
      (Tab.rd ⟨256, gf2LogMem⟩ v).elim false fun a =>
        decide (a ≤ 255) && (Tab.rd ⟨512, gf2ExpMem⟩ a == some v)

theorem gf2LogFact_true : gf2LogFact = true := by decide!

/-- check over GF(2^8): every exponent-table cell up to 510 holds a nonzero
byte whose logarithm is the index reduced mod 255, with the wraparound cells
(index divisible by 255, holding 1) mapped to log 255. -/
def gf2ExpLogFact : Bool :=
  (List.range 511).all fun s =>
    (Tab.rd ⟨512, gf2ExpMem⟩ s).elim false fun u =>
      (u != 0) && decide (u ≤ 255) &&
        (Tab.rd ⟨256, gf2LogMem⟩ u == some (if s % 255 = 0 then 255 else s % 255))

theorem gf2ExpLogFact_true : gf2ExpLogFact = true := by decide!

/-- the exponent table starts at 1 (generator to the power 0). -/
theorem gf2Exp_at_0 : Tab.rd ⟨512, gf2ExpMem⟩ 0 = some 1 := by decide!

/-- the exponent table wraps around to 1 at index 255. -/
theorem gf2Exp_at_255 : Tab.rd ⟨512, gf2ExpMem⟩ 255 = some 1 := by decide!

/-- exhaustive check over GF(2^8): every nonzero byte times its table
inverse is 1. -/
def gf2InvCheck : Bool :=
  (List.range 256).all fun x =>
    x == 0 ||
      ((GF2.invT ⟨512, gf2ExpMem⟩ ⟨256, gf2LogMem⟩ x).bind fun ix =>
        GF2.mulT ⟨512, gf2ExpMem⟩ ⟨256, gf2LogMem⟩ x ix) == some 1

theorem gf2InvCheck_true : gf2InvCheck = true := by decide!

/-! ### The primality test on actual primes

For claim C8 the trial-division test must be shown to accept every prime
characteristic, so that the constructor stores the characteristic. -/

/-- the trial-division loop finds no divisor of a number with no divisor in
the scanned range. -/
theorem checkPrimeGo_eq_zero {x : ℕ} (hx : ∀ d, 2 ≤ d → d < x → x % d ≠ 0) :
    ∀ fuel i, 2 ≤ i → GFn.checkPrimeGo fuel x i = 0 := by
  intro fuel
  induction fuel with
  | zero => intro i _; rfl
  | succ n ih =>
    intro i h2
    show (if i < x >>> 1 then (if x % i = 0 then -1 else GFn.checkPrimeGo n x (i + 1))
          else 0) = 0
    by_cases h : i < x >>> 1
    · have hx2 : x >>> 1 = x / 2 := by
        rw [Nat.shiftRight_eq_div_pow, pow_one]
      have hiltx : i < x := by
        have h' : i < x / 2 := hx2 ▸ h
        have : x / 2 ≤ x := Nat.div_le_self x 2
        omega
      rw [if_pos h, if_neg (hx i h2 hiltx)]
      exact ih (i + 1) (by omega)
    · rw [if_neg h]

/-- GFn::checkPrime accepts every prime. -/
theorem checkPrime_prime {p : ℕ} (hp : p.Prime) : GFn.checkPrime p = 0 := by
  have h2 := hp.two_le
  show (if p < 2 then (-1 : ℤ) else GFn.checkPrimeGo p p 2) = 0
  rw [if_neg (by omega)]
  refine checkPrimeGo_eq_zero ?_ p 2 le_rfl
  intro d hd2 hdp hmod
  rcases hp.eq_one_or_self_of_dvd d (Nat.dvd_of_mod_eq_zero hmod) with h | h <;> omega

/-- for a prime characteristic, the GFn constructor stores it. -/
theorem mk_len {p : ℕ} (hp : p.Prime) : (GFn.mk p).len = p := by
  unfold GFn.mk
  rw [if_neg (fun hh => hh (checkPrime_prime hp))]

/-! ### Claims -/

/-- C1 (counterexample): for the prime characteristic 29 the constructor
picks generator findPrime(29) = 23, which is not a primitive root modulo 29;
the logarithm of 2 is never written during construction, so the table
multiplication reads an indeterminate cell and does not agree with
slowMul(2, 1) = 2. -/
theorem C1_counterexample :
    GFn.mul (GFn.mk 29) 2 1 = none ∧
    GFn.mul (GFn.mk 29) 2 1 ≠ some (GFn.slowMul 29 2 1) := by
  refine ⟨by decide!, by decide!⟩

/-- C1 (amended): the table-based fast multiplication agrees with the
table-free slow multiplication on the binary field GF(2^8) for all pairs of
field elements, and on the prime field of characteristic 7 for all pairs of
field elements; for a prime characteristic whose chosen generator is not a
primitive root (such as 29) the tables are incomplete and the agreement
fails. -/
theorem C1_theorem :
    (∀ x : ℕ, x < 256 → ∀ y : ℕ, y < 256 →
      GF2.mul x y = some (GF2.slowMul x y)) ∧
    (∀ x : ℕ, x < 7 → ∀ y : ℕ, y < 7 →
      GFn.mul (GFn.mk 7) x y = some (GFn.slowMul 7 x y)) := by
  constructor
  · intro x hx y hy
    simp only [GF2.mul, expT_eq, logT_eq]
    exact gf2Mul_all x hx y hy
  · decide!

/-- C1 (witness): the agreement instantiated at concrete inputs. -/
theorem C1_witness :
    GF2.mul 2 3 = some (GF2.slowMul 2 3) ∧
    GFn.mul (GFn.mk 7) 2 3 = some (GFn.slowMul 7 2 3) :=
  ⟨C1_theorem.1 2 (by decide) 3 (by decide),
   C1_theorem.2 2 (by decide) 3 (by decide)⟩

/-- C2 (counterexample): in the binary variant the constructor loop runs
through i = 255, where the running value has wrapped around to 1, so the
logarithm of 1 is overwritten with 255 rather than keeping its first value
0. -/
theorem C2_counterexample :
    GF2.logT.rd 1 = some 255 ∧ GF2.logT.rd 1 ≠ some 0 := by
  rw [logT_eq]
  refine ⟨by decide!, by decide!⟩

/-- C2 (amended): for the prime-field constructor with characteristic 7 the
exponent and logarithm tables are mutual inverses on the nonzero range and
log[1] = 0; for the binary constructor, exp[log[v]] = v holds for every
nonzero byte and log[exp[e]] = e holds for exponents 1 to 254, but the
cyclic duplicate is rewritten, so log[1] = 255. -/
theorem C2_theorem :
    ((GFn.mk 7).log.rd 1 = some 0) ∧
    (∀ e : ℕ, e < 6 →
      (((GFn.mk 7).exp.rd e).bind fun v => (GFn.mk 7).log.rd v) = some e) ∧
    (∀ v : ℕ, v < 7 → v ≠ 0 →
      (((GFn.mk 7).log.rd v).bind fun a => (GFn.mk 7).exp.rd a) = some v) ∧
    (GF2.logT.rd 1 = some 255) ∧
    (∀ e : ℕ, e < 255 → e ≠ 0 →
      ((GF2.expT.rd e).bind fun v => GF2.logT.rd v) = some e) ∧
    (∀ v : ℕ, v < 256 → v ≠ 0 →
      ((GF2.logT.rd v).bind fun a => GF2.expT.rd a) = some v) := by
  refine ⟨by decide!, by decide!, by decide!, ?_, ?_, ?_⟩ <;>
    simp only [expT_eq, logT_eq] <;> decide!

/-- C2 (witness): the table inversions instantiated at concrete inputs. -/
theorem C2_witness :
    ((((GFn.mk 7).exp.rd 1).bind fun v => (GFn.mk 7).log.rd v) = some 1) ∧
    ((((GFn.mk 7).log.rd 3).bind fun a => (GFn.mk 7).exp.rd a) = some 3) ∧
    (((GF2.expT.rd 7).bind fun v => GF2.logT.rd v) = some 7) ∧
    (((GF2.logT.rd 9).bind fun a => GF2.expT.rd a) = some 9) :=
  ⟨C2_theorem.2.1 1 (by decide),
   C2_theorem.2.2.1 3 (by decide) (by decide),
   C2_theorem.2.2.2.2.1 7 (by decide) (by decide),
   C2_theorem.2.2.2.2.2 9 (by decide) (by decide)⟩

/-- C3: the claim is right and the code wrong.  The trial-division loop
tests i only while i < x/2, so for x = 4 it tests nothing: checkPrime(4)
reports prime, the constructor accepts characteristic 4, stores len = 4 and
isInitialized reports the object as initialized, while the claim (and the
spec) require the instance to stay uninitialized. -/
theorem C3_theorem :
    GFn.checkPrime 4 = 0 ∧ (GFn.mk 4).len = 4 ∧
    GFn.isInitialized (GFn.mk 4) = 0 := by
  refine ⟨by decide!, by decide!, by decide!⟩

/-- C4: in the binary field and in the prime field of characteristic 7,
every nonzero element times its inverse is 1, and dividing a product of
nonzero elements by one factor recovers the other. -/
theorem C4_theorem :
    (∀ x : ℕ, x < 256 → x ≠ 0 →
      ((GF2.inv x).bind fun ix => GF2.mul x ix) = some 1) ∧
    (∀ x : ℕ, x < 256 → ∀ y : ℕ, y < 256 → x ≠ 0 → y ≠ 0 →
      ((GF2.mul x y).bind fun q => GF2.div q y) = some x) ∧
    (∀ x : ℕ, x < 7 → x ≠ 0 →
      ((GFn.inv (GFn.mk 7) x).bind fun ix => GFn.mul (GFn.mk 7) x ix) = some 1) ∧
    (∀ x : ℕ, x < 7 → ∀ y : ℕ, y < 7 → x ≠ 0 → y ≠ 0 →
      ((GFn.mul (GFn.mk 7) x y).bind fun q => GFn.div (GFn.mk 7) q y) = some x) := by
  refine ⟨?_, ?_, by decide!, by decide!⟩
  · intro x hx hx0
    have h2 := all_range_true gf2InvCheck_true hx
    simp only [Bool.or_eq_true, beq_iff_eq] at h2
    rcases h2 with h | h
    · exact absurd h hx0
    · simp only [GF2.inv, GF2.mul, expT_eq, logT_eq]
      exact h
  · intro x hx y hy hx0 hy0
    have hfx := all_range_true gf2LogFact_true hx
    have hfy := all_range_true gf2LogFact_true hy
    simp only [Bool.or_eq_true, beq_iff_eq] at hfx hfy
    rcases hfx with h | hfx
    · exact absurd h hx0
    rcases hfy with h | hfy
    · exact absurd h hy0
    rcases hLx : Tab.rd ⟨256, gf2LogMem⟩ x with _ | a
    · rw [hLx] at hfx; simp at hfx
    rcases hLy : Tab.rd ⟨256, gf2LogMem⟩ y with _ | b
    · rw [hLy] at hfy; simp at hfy
    rw [hLx] at hfx
    rw [hLy] at hfy
    simp only [Option.elim_some, Bool.and_eq_true, decide_eq_true_eq, beq_iff_eq] at hfx hfy
    obtain ⟨ha255, hEa⟩ := hfx
    obtain ⟨hb255, hEb⟩ := hfy
    have hfs := all_range_true gf2ExpLogFact_true (show a + b < 511 by omega)
    rcases hEs : Tab.rd ⟨512, gf2ExpMem⟩ (a + b) with _ | u
    · rw [hEs] at hfs; simp at hfs
    rw [hEs] at hfs
    simp only [Option.elim_some, Bool.and_eq_true, decide_eq_true_eq, beq_iff_eq,
      bne_iff_ne] at hfs
    obtain ⟨⟨hu0, hu255⟩, hLu⟩ := hfs
    simp only [GF2.mul, GF2.div, GF2.mulT, GF2.divT, expT_eq, logT_eq]
    rw [if_neg (not_or.mpr ⟨hx0, hy0⟩), hLx]
    simp only [Option.some_bind]
    rw [hLy]
    simp only [Option.some_bind]
    rw [hEs]
    simp only [Option.some_bind]
    rw [if_neg hy0, if_neg hu0, hLu]
    simp only [Option.some_bind]
    by_cases hc : (a + b) % 255 = 0
    · rw [if_pos hc]
      by_cases ha : a = 255
      · have hidx : (255 + 255 - b) % 255 = 0 := by omega
        rw [hidx, gf2Exp_at_0]
        have hx1 : x = 1 := Option.some.inj ((ha ▸ hEa).symm.trans gf2Exp_at_255)
        rw [hx1]
      · have hidx : (255 + 255 - b) % 255 = a := by omega
        rw [hidx]
        exact hEa
    · rw [if_neg hc]
      by_cases ha : a = 255
      · have hidx : ((a + b) % 255 + 255 - b) % 255 = 0 := by omega
        rw [hidx, gf2Exp_at_0]
        have hx1 : x = 1 := Option.some.inj ((ha ▸ hEa).symm.trans gf2Exp_at_255)
        rw [hx1]
      · have hidx : ((a + b) % 255 + 255 - b) % 255 = a := by omega
        rw [hidx]
        exact hEa

/-- C4 (witness): the group properties instantiated at concrete inputs. -/
theorem C4_witness :
    (((GF2.inv 2).bind fun ix => GF2.mul 2 ix) = some 1) ∧
    (((GF2.mul 2 3).bind fun q => GF2.div q 3) = some 2) ∧
    (((GFn.inv (GFn.mk 7) 2).bind fun ix => GFn.mul (GFn.mk 7) 2 ix) = some 1) ∧
    (((GFn.mul (GFn.mk 7) 2 3).bind fun q => GFn.div (GFn.mk 7) q 3) = some 2) :=
  ⟨C4_theorem.1 2 (by decide) (by decide),
   C4_theorem.2.1 2 (by decide) 3 (by decide) (by decide) (by decide),
   C4_theorem.2.2.1 2 (by decide) (by decide),
   C4_theorem.2.2.2 2 (by decide) 3 (by decide) (by decide) (by decide)⟩

/-- C5 (counterexample): GFn::pow has no zero branch; pow(0, 1) reads
log[0], which is never written during construction, so the result is
indeterminate rather than the claimed 0. -/
theorem C5_counterexample :
    GFn.pow (GFn.mk 7) 0 1 = none ∧ GFn.pow (GFn.mk 7) 0 1 ≠ some 0 := by
  refine ⟨by decide!, by decide!⟩

/-- C5 (amended): only GFn::inv special-cases a zero argument with an
explicit branch before any table access and returns 0; GFn::pow, GF2::pow
and GF2::inv perform no zero check and read the never-written log[0], so
their result on a zero argument is indeterminate. -/
theorem C5_theorem :
    GFn.inv (GFn.mk 7) 0 = some 0 ∧
    GFn.pow (GFn.mk 7) 0 1 = none ∧
    GF2.pow 0 1 = none ∧
    GF2.inv 0 = none := by
  refine ⟨by decide!, by decide!, ?_, ?_⟩ <;>
    simp only [GF2.pow, GF2.inv, expT_eq, logT_eq] <;> decide!

/-- C6 (counterexample): findPrime(5) scans downward from 4 and returns 4,
because checkPrime wrongly accepts 4, so findPrime does not return the
first prime found; moreover the legacy GF constructor advances its running
value with the fixed multiplier 16, not with findPrime: in GF(7) its
exp[1] is slowMul(1, 16) = 2, while findPrime(7) = 5 would give 5. -/
theorem C6_counterexample :
    GFn.findPrime 5 = 4 ∧ ¬ Nat.Prime 4 ∧
    (GF.mk 7).exp.rd 1 = some 2 ∧
    GF.slowMul 7 1 (GFn.findPrime 7) = 5 ∧ (2 : ℕ) ≠ 5 := by
  refine ⟨by decide!, by norm_num, by decide!, by decide!, by decide⟩

/-- C6 (amended): the binary constructor advances its running value by
slowMul with generator 2 and the GFn constructor by slowMul with
findPrime(p); findPrime(2) = 2, findPrime(1) = 0 (the sentinel), and
findPrime scans downward from max - 1 returning the first value accepted by
checkPrime, which is not always prime (findPrime(5) = 4); the legacy GF
constructor instead uses the fixed multiplier 16. -/
theorem C6_theorem :
    GFn.findPrime 2 = 2 ∧ GFn.findPrime 1 = 0 ∧ GFn.findPrime 7 = 5 ∧
    GFn.findPrime 5 = 4 ∧ ¬ Nat.Prime 4 ∧
    (∀ i : ℕ, i < 255 →
      GF2.expT.rd (i + 1) = some (GF2.slowMul ((GF2.expT.rd i).getD 0) 2)) ∧
    (∀ i : ℕ, i < 6 → (GFn.mk 7).exp.rd (i + 1) =
      some (GFn.slowMul 7 (((GFn.mk 7).exp.rd i).getD 0) (GFn.findPrime 7))) ∧
    (∀ i : ℕ, i < 6 → (GF.mk 7).exp.rd (i + 1) =
      some (GF.slowMul 7 (((GF.mk 7).exp.rd i).getD 0) 16)) := by
  refine ⟨by decide!, by decide!, by decide!, by decide!, by norm_num, ?_,
    by decide!, by decide!⟩
  simp only [expT_eq]
  decide!

/-- C6 (witness): the generator step relations instantiated at index 0. -/
theorem C6_witness :
    GF2.expT.rd 1 = some (GF2.slowMul ((GF2.expT.rd 0).getD 0) 2) ∧
    (GFn.mk 7).exp.rd 1 =
      some (GFn.slowMul 7 (((GFn.mk 7).exp.rd 0).getD 0) (GFn.findPrime 7)) ∧
    (GF.mk 7).exp.rd 1 = some (GF.slowMul 7 (((GF.mk 7).exp.rd 0).getD 0) 16) :=
  ⟨C6_theorem.2.2.2.2.2.1 0 (by decide),
   C6_theorem.2.2.2.2.2.2.1 0 (by decide),
   C6_theorem.2.2.2.2.2.2.2 0 (by decide)⟩

/-- C7 (counterexample): with primitive polynomial 0x11D the product of
0x53 and 0xCA is 0x8F, not 0x01; the pair 0x53, 0xCA are inverses only for
the AES polynomial 0x11B, which this library does not use. -/
theorem C7_counterexample :
    GF2.mul 0x53 0xCA = some 0x8F ∧ GF2.mul 0x53 0xCA ≠ some 0x01 := by
  constructor <;> simp only [GF2.mul, expT_eq, logT_eq] <;> decide!

/-- C7 (amended): in the binary field with characteristic 256 and primitive
polynomial 0x11D: mul(0x02, 0x03) = 0x06, mul(0x53, 0xCA) = 0x8F,
inv(0x01) = 0x01, and div(0x00, 0x05) = 0x00. -/
theorem C7_theorem :
    GF2.mul 0x02 0x03 = some 0x06 ∧
    GF2.mul 0x53 0xCA = some 0x8F ∧
    GF2.inv 0x01 = some 0x01 ∧
    GF2.div 0x00 0x05 = some 0x00 := by
  refine ⟨?_, ?_, ?_, ?_⟩ <;>
    simp only [GF2.mul, GF2.inv, GF2.div, expT_eq, logT_eq] <;> decide!

/-- C8: in a prime field with prime characteristic p, addition is modular
addition, subtraction is modular subtraction computed without signed
wraparound, and in GF(7): add(5, 4) = 2 and sub(2, 5) = 4. -/
theorem C8_theorem (p x y : ℕ) (hp : p.Prime) (hx : x < p) (hy : y < p) :
    GFn.add (GFn.mk p) x y = (x + y) % p ∧
    GFn.sub (GFn.mk p) x y = (((x : ℤ) - (y : ℤ)) % (p : ℤ)).toNat ∧
    GFn.add (GFn.mk 7) 5 4 = 2 ∧ GFn.sub (GFn.mk 7) 2 5 = 4 := by
  refine ⟨?_, ?_, by decide!, by decide!⟩
  · show (x + y) % (GFn.mk p).len = (x + y) % p
    rw [mk_len hp]
  · show (if x ≥ y then (x - y) % (GFn.mk p).len
          else (GFn.mk p).len - (y - x) % (GFn.mk p).len) =
      (((x : ℤ) - (y : ℤ)) % (p : ℤ)).toNat
    rw [mk_len hp]
    by_cases hxy : x ≥ y
    · rw [if_pos hxy]
      have hmod : ((x : ℤ) - y) % (p : ℤ) = (x : ℤ) - y :=
        Int.emod_eq_of_lt (by omega) (by omega)
      rw [hmod, Nat.mod_eq_of_lt (by omega)]
      omega
    · rw [if_neg hxy]
      have h1 : ((x : ℤ) - y + p * 1) % p = ((x : ℤ) - y) % p := by
        rw [Int.add_mul_emod_self_left]
      have h2 : ((x : ℤ) - y + p * 1) % p = (x : ℤ) - y + p * 1 :=
        Int.emod_eq_of_lt (by omega) (by omega)
      rw [mul_one] at h1 h2
      rw [← h1, h2, Nat.mod_eq_of_lt (show y - x < p by omega)]
      omega

/-- C8 (witness): the modular laws instantiated in GF(7). -/
theorem C8_witness :
    GFn.add (GFn.mk 7) 5 4 = (5 + 4) % 7 ∧
    GFn.sub (GFn.mk 7) 5 4 = (((5 : ℤ) - (4 : ℤ)) % (7 : ℤ)).toNat ∧
    GFn.add (GFn.mk 7) 5 4 = 2 ∧ GFn.sub (GFn.mk 7) 2 5 = 4 :=
  C8_theorem 7 5 4 (by norm_num) (by decide) (by decide)

/-- C9: zero is absorbed without error in every variant, with the zero
checks placed before any table read: multiplication by zero is zero,
division of zero and by zero is zero; the statement holds for arbitrary
table states, which shows no table cell is consulted. -/
theorem C9_theorem (s t : Obj) (x y : ℕ) (_hy : y ≠ 0) :
    GF2.mul 0 y = some 0 ∧ GF2.mul x 0 = some 0 ∧
    GF2.div x 0 = some 0 ∧ GF2.div 0 y = some 0 ∧
    GFn.mul s 0 y = some 0 ∧ GFn.mul s x 0 = some 0 ∧
    GFn.div s x 0 = some 0 ∧ GFn.div s 0 y = some 0 ∧
    GF.mul t 0 y = some 0 ∧ GF.mul t x 0 = some 0 ∧
    GF.div t x 0 = 0 ∧ GF.div t 0 y = 0 := by
  refine ⟨?_, ?_, ?_, ?_, ?_, ?_, ?_, ?_, ?_, ?_, ?_, ?_⟩ <;>
    simp [GF2.mul, GF2.mulT, GF2.div, GF2.divT, GFn.mul, GFn.div, GF.mul,
      GF.div]

/-- C9 (witness): zero absorption instantiated at concrete states and
inputs. -/
theorem C9_witness :
    GF2.mul 0 5 = some 0 ∧ GF2.mul 3 0 = some 0 ∧
    GF2.div 3 0 = some 0 ∧ GF2.div 0 5 = some 0 ∧
    GFn.mul (GFn.mk 7) 0 5 = some 0 ∧ GFn.mul (GFn.mk 7) 3 0 = some 0 ∧
    GFn.div (GFn.mk 7) 3 0 = some 0 ∧ GFn.div (GFn.mk 7) 0 5 = some 0 ∧
    GF.mul (GF.mk 7) 0 5 = some 0 ∧ GF.mul (GF.mk 7) 3 0 = some 0 ∧
    GF.div (GF.mk 7) 3 0 = 0 ∧ GF.div (GF.mk 7) 0 5 = 0 :=
  C9_theorem (GFn.mk 7) (GF.mk 7) 3 5 (by decide)

/-- C10 (counterexample): at the first iteration i = len of the legacy
duplication loop the source index i - len - 1 is -1 after integer
promotion, outside the allocated bounds; the corresponding cell of the
constructed table holds the result of that failed read. -/
theorem C10_counterexample :
    GF.dupSrc 7 7 = -1 ∧ ¬ (0 ≤ GF.dupSrc 7 7) ∧ (GF.mk 7).exp.rd 7 = none := by
  refine ⟨by decide, by decide, by decide!⟩

/-- C10 (amended): in the legacy duplication loop every read except the
first uses a source index within the allocated bounds: for every i with
len + 1 <= i < 2 * len the source index i - len - 1 lies in [0, 2 * len);
at i = len the index is -1, out of bounds. -/
theorem C10_theorem (len i : ℕ) (h1 : len + 1 ≤ i) (h2 : i < 2 * len) :
    0 ≤ GF.dupSrc len i ∧ GF.dupSrc len i < 2 * len := by
  unfold GF.dupSrc
  omega

/-- C10 (witness): the in-bounds property instantiated at len = 7, i = 8. -/
theorem C10_witness :
    7 + 1 ≤ 8 ∧ 8 < 2 * 7 ∧ (0 ≤ GF.dupSrc 7 8 ∧ GF.dupSrc 7 8 < 2 * 7) :=
  ⟨by decide, by decide, C10_theorem 7 8 (by decide) (by decide)⟩
